/-
Verification of the aviation-dashboard repository (ETL + Streamlit dashboard)
against its natural-language specification.

Embedded components:
- `flatten_flight` and its helper `get` from src/etl/etl_aviationstack.py
  (lines 40-111), over a JSON value model.
- the pagination loop of `fetch_and_store` (lines 124-143).
- the derived on-time flag computed by the Writer (line 157).
- the dashboard's filter pipeline and KPI computations from
  src/app/streamlit_dashboard.py (lines 58-95).

Numeric columns (pandas float64 delays, percentages) are modelled with ℚ;
null / NaN entries are modelled with `Option`.
-/
import Mathlib

namespace AviationDashboard

/-! ## JSON value model for raw API records -/

/-- A JSON value as returned by the upstream API (a Python object built by
`resp.json()`): null, booleans, numbers (modelled as rationals), strings,
arrays and objects (ordered key/value lists, keys unique in practice). -/
inductive Json where
  | null : Json
  | bool (b : Bool) : Json
  | num (q : ℚ) : Json
  | str (s : String) : Json
  | arr (elems : List Json) : Json
  | obj (fields : List (String × Json)) : Json

/-- The inner helper `get(d, *keys)` of `flatten_flight`
(etl_aviationstack.py lines 41-48): walk `x = x[k]` for each key; any
failure (key absent, or the current value is not a dict so string indexing
raises) returns `None`, modelled as `none`.  A successful walk returns the
value found, which may itself be JSON null. -/
def getJ : Json → List String → Option Json
  | x, [] => some x
  | Json.obj fs, k :: ks =>
    match fs.lookup k with
    | some v => getJ v ks
    | none => none
  | _, _ :: _ => none

/-- Python stores the helper's result directly in the row, where an
exception and a stored JSON null both appear as `None`; the persisted cell
value is therefore `(getJ ...).getD Json.null`. -/
def cell (f : List (String × Json)) (ks : List String) : Json :=
  (getJ (Json.obj f) ks).getD Json.null

/-- Source `flatten_flight` (etl_aviationstack.py lines 40-111): one raw nested
record (a JSON object, given by its field list) to one flat row of named
cells.  `f.get('flight_date')` (dict.get, `None` when absent) coincides
with the helper applied to the single-key path. -/
def flatten_flight (f : List (String × Json)) : List (String × Json) :=
  [ ("flight_date", (f.lookup "flight_date").getD Json.null),
    ("flight_status", (f.lookup "flight_status").getD Json.null),
    -- airline
    ("airline_name", cell f ["airline", "name"]),
    ("airline_iata", cell f ["airline", "iata"]),
    ("airline_icao", cell f ["airline", "icao"]),
    -- flight
    ("flight_number", cell f ["flight", "number"]),
    ("flight_iata", cell f ["flight", "iata"]),
    ("flight_icao", cell f ["flight", "icao"]),
    -- departure
    ("dep_airport", cell f ["departure", "airport"]),
    ("dep_iata", cell f ["departure", "iata"]),
    ("dep_icao", cell f ["departure", "icao"]),
    ("dep_timezone", cell f ["departure", "timezone"]),
    ("dep_terminal", cell f ["departure", "terminal"]),
    ("dep_gate", cell f ["departure", "gate"]),
    ("dep_delay", cell f ["departure", "delay"]),
    ("dep_scheduled", cell f ["departure", "scheduled"]),
    ("dep_estimated", cell f ["departure", "estimated"]),
    ("dep_actual", cell f ["departure", "actual"]),
    -- arrival
    ("arr_airport", cell f ["arrival", "airport"]),
    ("arr_iata", cell f ["arrival", "iata"]),
    ("arr_icao", cell f ["arrival", "icao"]),
    ("arr_timezone", cell f ["arrival", "timezone"]),
    ("arr_terminal", cell f ["arrival", "terminal"]),
    ("arr_gate", cell f ["arrival", "gate"]),
    ("arr_baggage", cell f ["arrival", "baggage"]),
    ("arr_delay", cell f ["arrival", "delay"]),
    ("arr_scheduled", cell f ["arrival", "scheduled"]),
    ("arr_estimated", cell f ["arrival", "estimated"]),
    ("arr_actual", cell f ["arrival", "actual"]),
    -- aircraft
    ("aircraft_registration", cell f ["aircraft", "registration"]),
    ("aircraft_iata", cell f ["aircraft", "iata"]),
    ("aircraft_icao", cell f ["aircraft", "icao"]),
    ("aircraft_icao24", cell f ["aircraft", "icao24"]),
    -- live
    ("live_updated", cell f ["live", "updated"]),
    ("live_latitude", cell f ["live", "latitude"]),
    ("live_longitude", cell f ["live", "longitude"]),
    ("live_altitude", cell f ["live", "altitude"]),
    ("live_direction", cell f ["live", "direction"]),
    ("live_speed_horizontal", cell f ["live", "speed_horizontal"]),
    ("live_speed_vertical", cell f ["live", "speed_vertical"]),
    ("live_is_ground", cell f ["live", "is_ground"]) ]

/-- The dotted path extracted for each output field, in row order. -/
def fieldPaths : List (String × List String) :=
  [ ("flight_date", ["flight_date"]),
    ("flight_status", ["flight_status"]),
    ("airline_name", ["airline", "name"]),
    ("airline_iata", ["airline", "iata"]),
    ("airline_icao", ["airline", "icao"]),
    ("flight_number", ["flight", "number"]),
    ("flight_iata", ["flight", "iata"]),
    ("flight_icao", ["flight", "icao"]),
    ("dep_airport", ["departure", "airport"]),
    ("dep_iata", ["departure", "iata"]),
    ("dep_icao", ["departure", "icao"]),
    ("dep_timezone", ["departure", "timezone"]),
    ("dep_terminal", ["departure", "terminal"]),
    ("dep_gate", ["departure", "gate"]),
    ("dep_delay", ["departure", "delay"]),
    ("dep_scheduled", ["departure", "scheduled"]),
    ("dep_estimated", ["departure", "estimated"]),
    ("dep_actual", ["departure", "actual"]),
    ("arr_airport", ["arrival", "airport"]),
    ("arr_iata", ["arrival", "iata"]),
    ("arr_icao", ["arrival", "icao"]),
    ("arr_timezone", ["arrival", "timezone"]),
    ("arr_terminal", ["arrival", "terminal"]),
    ("arr_gate", ["arrival", "gate"]),
    ("arr_baggage", ["arrival", "baggage"]),
    ("arr_delay", ["arrival", "delay"]),
    ("arr_scheduled", ["arrival", "scheduled"]),
    ("arr_estimated", ["arrival", "estimated"]),
    ("arr_actual", ["arrival", "actual"]),
    ("aircraft_registration", ["aircraft", "registration"]),
    ("aircraft_iata", ["aircraft", "iata"]),
    ("aircraft_icao", ["aircraft", "icao"]),
    ("aircraft_icao24", ["aircraft", "icao24"]),
    ("live_updated", ["live", "updated"]),
    ("live_latitude", ["live", "latitude"]),
    ("live_longitude", ["live", "longitude"]),
    ("live_altitude", ["live", "altitude"]),
    ("live_direction", ["live", "direction"]),
    ("live_speed_horizontal", ["live", "speed_horizontal"]),
    ("live_speed_vertical", ["live", "speed_vertical"]),
    ("live_is_ground", ["live", "is_ground"]) ]

/-- The fixed 41 column names of a flattened row, in write order. -/
def fieldNames : List String := fieldPaths.map Prod.fst

/-! ## Writer: derived on-time flag -/

/-- The Writer's derived column
`df['is_on_time'] = df['arr_delay'].apply(lambda x: 1 if pd.notna(x) and x <= 15 else 0)`
(etl_aviationstack.py line 157), applied to the numeric-coerced arrival
delay (`none` = NaN after `pd.to_numeric(..., errors='coerce')`). -/
def is_on_time (arr_delay : Option ℚ) : Nat :=
  match arr_delay with
  | some x => if x ≤ 15 then 1 else 0
  | none => 0

/-! ## Fetcher: pagination loop -/

/-- The per-airline pagination loop of `fetch_and_store`
(etl_aviationstack.py lines 126-140): starting with `pagesLeft = max_pages`
pages remaining and the given offset, request the page at `offset`
(`api offset` models the `data` array of the response), record
`(offset, count)`, stop if `count < limit`, otherwise continue at
`offset + limit`. -/
def fetchPagesAux (api : Nat → List (List (String × Json))) (limit : Nat) :
    Nat → Nat → List (Nat × Nat)
  | 0, _ => []
  | pagesLeft + 1, offset =>
    let data := api offset
    (offset, data.length) ::
      (if data.length < limit then []
       else fetchPagesAux api limit pagesLeft (offset + limit))

/-- All pages requested for one airline: `offset` starts at 0 and at most
`max_pages` pages are fetched (`for page in range(max_pages)`). -/
def fetchPages (api : Nat → List (List (String × Json)))
    (maxPages limit : Nat) : List (Nat × Nat) :=
  fetchPagesAux api limit maxPages 0

/-- The rows accumulated for one airline: every record of every fetched
page, flattened in order (`airline_rows.append(flatten_flight(f))`). -/
def fetchRowsAux (api : Nat → List (List (String × Json))) (limit : Nat) :
    Nat → Nat → List (List (String × Json))
  | 0, _ => []
  | pagesLeft + 1, offset =>
    let data := api offset
    data.map flatten_flight ++
      (if data.length < limit then []
       else fetchRowsAux api limit pagesLeft (offset + limit))

/-! ## Dashboard: filters and KPIs -/

/-- One loaded dashboard record, restricted to the columns the dashboard
reads (streamlit_dashboard.py).  `none` models a pandas null (NaT / NaN);
`flight_date` is modelled as a day ordinal, `arr_delay` as the numeric
coerced delay. -/
structure Row where
  flight_date : Option Int
  flight_status : Option String
  airline_name : Option String
  dep_iata : Option String
  arr_iata : Option String
  arr_delay : Option ℚ
deriving DecidableEq

/-- The date-range mask
`(pd.to_datetime(df['flight_date']) >= start) & (... <= end)`
(streamlit_dashboard.py line 59); a null date (NaT) fails both comparisons. -/
def date_mask (startD endD : Int) (r : Row) : Bool :=
  match r.flight_date with
  | some d => decide (startD ≤ d) && decide (d ≤ endD)
  | none => false

/-- The dashboard's sequential filter pipeline
(streamlit_dashboard.py lines 58-66): date-range mask first, then each
categorical filter only when its selection is not "All".  Equality against
a null cell (`NaN == value`) is false, modelled by comparing with `some`. -/
def applyFilters (df : List Row) (startD endD : Int)
    (selAirline selDep selArr : String) : List Row :=
  let f0 := df.filter (date_mask startD endD)
  let f1 := if selAirline ≠ "All"
    then f0.filter (fun r => r.airline_name == some selAirline) else f0
  let f2 := if selDep ≠ "All"
    then f1.filter (fun r => r.dep_iata == some selDep) else f1
  let f3 := if selArr ≠ "All"
    then f2.filter (fun r => r.arr_iata == some selArr) else f2
  f3

/-- The four filter steps indexed for reordering: 0 = date range,
1 = airline, 2 = departure IATA, 3 = arrival IATA. -/
def filterStep (startD endD : Int) (selAirline selDep selArr : String) :
    Fin 4 → List Row → List Row
  | 0 => fun l => l.filter (date_mask startD endD)
  | 1 => fun l => if selAirline ≠ "All"
      then l.filter (fun r => r.airline_name == some selAirline) else l
  | 2 => fun l => if selDep ≠ "All"
      then l.filter (fun r => r.dep_iata == some selDep) else l
  | 3 => fun l => if selArr ≠ "All"
      then l.filter (fun r => r.arr_iata == some selArr) else l

/-- The filter pipeline applied in an arbitrary step order. -/
def applyFiltersOrder (ord : List (Fin 4)) (df : List Row)
    (startD endD : Int) (selAirline selDep selArr : String) : List Row :=
  ord.foldl (fun acc i => filterStep startD endD selAirline selDep selArr i acc) df

/-- The per-record predicate each filter step implements: a step whose
selection is "All" keeps every record (the source skips the filter
entirely), otherwise it keeps exact matches of the relevant column. -/
def stepPred (startD endD : Int) (selAirline selDep selArr : String) :
    Fin 4 → Row → Bool
  | 0 => date_mask startD endD
  | 1 => fun r => (selAirline == "All") || (r.airline_name == some selAirline)
  | 2 => fun r => (selDep == "All") || (r.dep_iata == some selDep)
  | 3 => fun r => (selArr == "All") || (r.arr_iata == some selArr)

/-- Source `total_flights = len(filtered)` (streamlit_dashboard.py line 72). -/
def total_flights (rows : List Row) : Nat := rows.length

/-- The KPI divisor `(total_flights if total_flights else 1)`
(streamlit_dashboard.py lines 73 and 76): Python truthiness replaces a zero
count by 1. -/
def kpi_divisor (n : Nat) : Nat := if n = 0 then 1 else n

/-- Per-record `filtered['flight_status'].str.lower().eq('cancelled')`:
case-insensitive match of status to "cancelled"; a null status compares
false. -/
def is_cancelled (r : Row) : Bool :=
  (r.flight_status.map String.toLower) == some "cancelled"

/-- Source `cancelled_pct` (streamlit_dashboard.py line 73). -/
def cancelled_pct (rows : List Row) : ℚ :=
  100 * (rows.countP is_cancelled : ℚ) / (kpi_divisor (total_flights rows) : ℚ)

/-- Source `avg_arr_delay` (streamlit_dashboard.py lines 74-75): drop null delays,
take the mean of what remains, 0 when nothing remains. -/
def avg_arr_delay (rows : List Row) : ℚ :=
  let ds := rows.filterMap (fun r => r.arr_delay)
  if ds.isEmpty then 0 else ds.sum / (ds.length : ℚ)

/-- The record-level test of the on-time KPI:
`filtered['arr_delay'].fillna(0) <= delay_threshold` — the null delay is
replaced by 0 before comparing with the slider threshold. -/
def on_time_b (t : ℚ) (r : Row) : Bool := decide ((r.arr_delay.getD 0) ≤ t)

/-- Source `on_time_pct` (streamlit_dashboard.py line 76). -/
def on_time_pct (rows : List Row) (t : ℚ) : ℚ :=
  100 * (rows.countP (on_time_b t) : ℚ) / (kpi_divisor (total_flights rows) : ℚ)

/-- Keys of `filtered.groupby('airline_name')`: the distinct non-null airline
names of the filtered subset (pandas groupby drops null keys). -/
def airline_keys (rows : List Row) : List String :=
  (rows.filterMap (fun r => r.airline_name)).dedup

/-- Source `delay_by_airline` (streamlit_dashboard.py line 92): mean arrival delay
per airline; an airline whose delays are all null has a NaN mean and is
dropped by the trailing `.dropna()`.  The `sort_values('arr_delay',
ascending=False)` presentation order is not modelled (no claim depends on
it); the membership and emptiness of the result are preserved exactly. -/
def delay_by_airline (rows : List Row) : List (String × ℚ) :=
  (airline_keys rows).filterMap (fun a =>
    let ds := (rows.filter (fun r => r.airline_name == some a)).filterMap
      (fun r => r.arr_delay)
    if ds.isEmpty then none else some (a, ds.sum / (ds.length : ℚ)))

/-- The render step of the Delay-by-Airline chart (streamlit_dashboard.py
lines 93-95): `fig_airline_delay` is assigned only inside
`if not delay_by_airline.empty:`, yet `st.plotly_chart(fig_airline_delay, ...)`
runs unconditionally; when the grouped table is empty the name is unbound
and the script raises `NameError`, modelled as `Except.error`. -/
def render_airline_delay_chart (rows : List Row) :
    Except String (List (String × ℚ)) :=
  if (delay_by_airline rows).isEmpty then
    Except.error "NameError: fig_airline_delay is not defined"
  else
    Except.ok (delay_by_airline rows)

/-! ## Concrete scenario data -/

/-- The scenario table of the spec (§8): three rows of airline "Emirates"
with arrival delays 10, null, 30, all on the same date. -/
def emiratesRows : List Row :=
  [ { flight_date := some 0, flight_status := some "scheduled",
      airline_name := some "Emirates", dep_iata := some "DXB",
      arr_iata := some "NRT", arr_delay := some 10 },
    { flight_date := some 0, flight_status := some "scheduled",
      airline_name := some "Emirates", dep_iata := some "DXB",
      arr_iata := some "NRT", arr_delay := none },
    { flight_date := some 0, flight_status := some "scheduled",
      airline_name := some "Emirates", dep_iata := some "DXB",
      arr_iata := some "NRT", arr_delay := some 30 } ]

/-- A stubbed upstream API for the pagination scenario: the page at
offset 0 holds 100 records, the page at offset 100 holds 40 records, and
every other offset would return another full page of 100. -/
def api40 : Nat → List (List (String × Json)) := fun offset =>
  if offset = 0 then List.replicate 100 []
  else if offset = 100 then List.replicate 40 []
  else List.replicate 100 []

/-- A filtered subset in which the only airline has no non-null
arrival-delay data (the edge case of the Delay-by-Airline chart). -/
def noDelayRows : List Row :=
  [ { flight_date := some 0, flight_status := some "scheduled",
      airline_name := some "Emirates", dep_iata := some "DXB",
      arr_iata := some "NRT", arr_delay := none } ]

/-! ## Theorems -/

/-- C1: for every flattened row written by the Writer, the persisted
`is_on_time` column is 1 iff the row's (numeric-coerced) arrival delay is
non-null and at most 15 minutes, and 0 otherwise — null included.  The
definition takes no threshold parameter: the dashboard's adjustable slider
cannot influence it. -/
theorem is_on_time_iff_nonnull_le_15 (d : Option ℚ) :
    (is_on_time d = 1 ↔ ∃ x, d = some x ∧ x ≤ 15) ∧
    (is_on_time d = 0 ↔ ¬ ∃ x, d = some x ∧ x ≤ 15) := by
  cases d with
  | none => simp [is_on_time]
  | some x => by_cases h : x ≤ 15 <;> simp [is_on_time, h]

/-- Evaluation of C1 at concrete delays: 10 minutes is on time, a null
delay is not. -/
theorem is_on_time_iff_nonnull_le_15_witness :
    is_on_time (some 10) = 1 ∧ is_on_time none = 0 :=
  ⟨(is_on_time_iff_nonnull_le_15 (some 10)).1.mpr ⟨10, rfl, by norm_num⟩,
   (is_on_time_iff_nonnull_le_15 none).2.mpr (by simp)⟩

/-- C10: for every input record, `flatten_flight` produces exactly the
fixed 41 column names, in a fixed order — no upstream field leaks through
and no expected column is absent. -/
theorem flatten_flight_fixed_columns (f : List (String × Json)) :
    (flatten_flight f).map Prod.fst = fieldNames ∧ fieldNames.length = 41 :=
  ⟨rfl, rfl⟩

/-- Evaluation of C10 on the empty record. -/
theorem flatten_flight_fixed_columns_witness :
    (flatten_flight []).map Prod.fst = fieldNames :=
  (flatten_flight_fixed_columns []).1

/-- C6: on an empty filtered subset the KPI divisor is replaced by 1, and
both the cancellation percentage and the on-time percentage (at every
slider threshold) compute to 0 with no division by zero. -/
theorem empty_subset_kpis_zero :
    kpi_divisor (total_flights ([] : List Row)) = 1 ∧
    cancelled_pct [] = 0 ∧
    ∀ t : ℚ, on_time_pct [] t = 0 := by
  refine ⟨rfl, ?_, fun t => ?_⟩ <;>
    simp [cancelled_pct, on_time_pct, total_flights, kpi_divisor]

/-- Evaluation of C6 at threshold 15. -/
theorem empty_subset_kpis_zero_witness : on_time_pct [] 15 = 0 :=
  empty_subset_kpis_zero.2.2 15

/-- C7: the mean arrival-delay KPI averages the non-null delays only
(nulls are excluded, not zeroed), is 0 when every delay is null, and on
the Emirates scenario rows (delays 10, null, 30) equals 20. -/
theorem avg_arr_delay_mean_of_nonnull :
    (∀ rows : List Row,
      (rows.filterMap (fun r => r.arr_delay) = [] → avg_arr_delay rows = 0) ∧
      (rows.filterMap (fun r => r.arr_delay) ≠ [] →
        avg_arr_delay rows = (rows.filterMap (fun r => r.arr_delay)).sum /
          ((rows.filterMap (fun r => r.arr_delay)).length : ℚ))) ∧
    avg_arr_delay (applyFilters emiratesRows 0 0 "Emirates" "All" "All") = 20 := by
  constructor
  · intro rows
    constructor
    · intro h
      simp [avg_arr_delay, h]
    · intro h
      simp [avg_arr_delay, List.isEmpty_iff, h]
  · have hf : applyFilters emiratesRows 0 0 "Emirates" "All" "All" = emiratesRows := rfl
    have hd : emiratesRows.filterMap (fun r => r.arr_delay) = [10, 30] := rfl
    rw [hf]
    show (if ([10, 30] : List ℚ).isEmpty then 0
      else ([10, 30] : List ℚ).sum / (([10, 30] : List ℚ).length : ℚ)) = 20
    norm_num

/-- Evaluation of C7: the Emirates scenario mean, via the general clause
of the theorem. -/
theorem avg_arr_delay_mean_of_nonnull_witness :
    avg_arr_delay emiratesRows =
      (emiratesRows.filterMap (fun r => r.arr_delay)).sum /
        ((emiratesRows.filterMap (fun r => r.arr_delay)).length : ℚ) :=
  (avg_arr_delay_mean_of_nonnull.1 emiratesRows).2 (by decide)

/-- C2 counterexample: on the Emirates scenario rows (arrival delays
10, null, 30), with the airline filter at "Emirates" and the slider at 15,
the dashboard's on-time percentage is NOT 33.3% (100/3): the null delay is
filled with 0, which is ≤ 15, so 2 of 3 records count as on time. -/
theorem on_time_pct_emirates_not_third :
    on_time_pct (applyFilters emiratesRows 0 0 "Emirates" "All" "All") 15 ≠
      100 / 3 := by
  have hf : applyFilters emiratesRows 0 0 "Emirates" "All" "All" = emiratesRows := rfl
  have hc : emiratesRows.countP (on_time_b 15) = 2 := rfl
  have hk : kpi_divisor (total_flights emiratesRows) = 3 := rfl
  rw [hf]
  show 100 * (emiratesRows.countP (on_time_b 15) : ℚ) /
      (kpi_divisor (total_flights emiratesRows) : ℚ) ≠ 100 / 3
  rw [hc, hk]
  norm_num

/-- C2 amended: on the Emirates scenario rows with the filter at
"Emirates" and the slider at 15, exactly 2 of the 3 records count as on
time (the null delay is treated as 0, hence on time) and the dashboard's
on-time percentage is 200/3 ≈ 66.7%. -/
theorem on_time_pct_emirates_two_thirds :
    (applyFilters emiratesRows 0 0 "Emirates" "All" "All").countP (on_time_b 15) = 2 ∧
    on_time_pct (applyFilters emiratesRows 0 0 "Emirates" "All" "All") 15 =
      200 / 3 := by
  have hf : applyFilters emiratesRows 0 0 "Emirates" "All" "All" = emiratesRows := rfl
  have hc : emiratesRows.countP (on_time_b 15) = 2 := rfl
  have hk : kpi_divisor (total_flights emiratesRows) = 3 := rfl
  refine ⟨by rw [hf, hc], ?_⟩
  rw [hf]
  show 100 * (emiratesRows.countP (on_time_b 15) : ℚ) /
      (kpi_divisor (total_flights emiratesRows) : ℚ) = 200 / 3
  rw [hc, hk]
  norm_num

/-- C8: for every nonempty filtered subset and every threshold, the
on-time percentage counts exactly the records whose arrival delay — with
null replaced by 0 — is at most the threshold, divided by the filtered
record count; and this rule disagrees with the persisted fixed-15-minute
`is_on_time` column (a null delay counts as on time for the dashboard at
threshold 15 but is flagged 0 by the Writer). -/
theorem on_time_pct_slider_rule (rows : List Row) (t : ℚ) :
    (∀ r : Row, on_time_b t r = true ↔
      (match r.arr_delay with
        | some x => x ≤ t
        | none => (0 : ℚ) ≤ t)) ∧
    (rows ≠ [] →
      on_time_pct rows t =
        100 * (rows.countP (on_time_b t) : ℚ) / (rows.length : ℚ)) ∧
    ∃ d : Option ℚ,
      (if d.getD 0 ≤ (15 : ℚ) then 1 else 0) ≠ is_on_time d := by
  refine ⟨?_, ?_, ⟨none, by norm_num [is_on_time]⟩⟩
  · intro r
    cases h : r.arr_delay <;> simp [on_time_b, h]
  · intro h
    have hk : kpi_divisor (total_flights rows) = rows.length := by
      have hne : rows.length ≠ 0 := fun hl => h (List.eq_nil_of_length_eq_zero hl)
      simp [kpi_divisor, total_flights, hne]
    rw [on_time_pct, hk]

/-- Evaluation of C8 on the Emirates scenario at threshold 15. -/
theorem on_time_pct_slider_rule_witness :
    on_time_pct emiratesRows 15 =
      100 * (emiratesRows.countP (on_time_b 15) : ℚ) /
        (emiratesRows.length : ℚ) :=
  (on_time_pct_slider_rule emiratesRows 15).2.1 (by decide)

/-- C3: at a filtered subset whose only airline has no non-null delay, the
grouped table is empty (the airline is dropped) and the render step of the
Delay-by-Airline chart fails: `fig_airline_delay` is never assigned, yet
`st.plotly_chart(fig_airline_delay, ...)` is executed unconditionally, so
the script raises `NameError` instead of completing. -/
theorem render_airline_delay_chart_crashes_on_no_delay_data :
    delay_by_airline noDelayRows = [] ∧
    render_airline_delay_chart noDelayRows =
      Except.error "NameError: fig_airline_delay is not defined" :=
  ⟨rfl, rfl⟩

/-- Each filter step of the dashboard pipeline is a `List.filter` by its
per-record predicate (a skipped "All" step filters by a constantly-true
predicate). -/
theorem filterStep_eq_filter (s e : Int) (a d ar : String) (i : Fin 4)
    (l : List Row) :
    filterStep s e a d ar i l = l.filter (stepPred s e a d ar i) := by
  fin_cases i
  · rfl
  · by_cases h : a = "All"
    · subst h; simp [filterStep, stepPred]
    · have hb : (a == "All") = false := by simpa using h
      simp [filterStep, stepPred, h, hb]
  · by_cases h : d = "All"
    · subst h; simp [filterStep, stepPred]
    · have hb : (d == "All") = false := by simpa using h
      simp [filterStep, stepPred, h, hb]
  · by_cases h : ar = "All"
    · subst h; simp [filterStep, stepPred]
    · have hb : (ar == "All") = false := by simpa using h
      simp [filterStep, stepPred, h, hb]

/-- Applying the filter steps in any given order filters by the
conjunction (over that order) of the step predicates. -/
theorem applyFiltersOrder_eq_filter_all (s e : Int) (a d ar : String)
    (ord : List (Fin 4)) (df : List Row) :
    applyFiltersOrder ord df s e a d ar =
      df.filter (fun r => ord.all (fun i => stepPred s e a d ar i r)) := by
  induction ord generalizing df with
  | nil => simp [applyFiltersOrder]
  | cons i ord ih =>
    have h0 : applyFiltersOrder (i :: ord) df s e a d ar =
        applyFiltersOrder ord (filterStep s e a d ar i df) s e a d ar := rfl
    rw [h0, ih, filterStep_eq_filter, List.filter_filter]
    refine List.filter_congr ?_
    intro r _
    simp [List.all_cons, Bool.and_comm]

/-- The value of `List.all` only depends on the multiset of elements. -/
theorem all_eq_of_perm {α : Type} {l₁ l₂ : List α} (h : l₁.Perm l₂)
    (f : α → Bool) : l₁.all f = l₂.all f := by
  rw [Bool.eq_iff_iff, List.all_eq_true, List.all_eq_true]
  exact ⟨fun H x hx => H x (h.mem_iff.mpr hx),
         fun H x hx => H x (h.mem_iff.mp hx)⟩

/-- The date-range mask holds exactly on records with a non-null date
inside the closed range. -/
theorem date_mask_eq_true_iff (s e : Int) (r : Row) :
    date_mask s e r = true ↔
      ∃ fd : Int, r.flight_date = some fd ∧ s ≤ fd ∧ fd ≤ e := by
  cases h : r.flight_date <;> simp [date_mask, h]

/-- C9: the dashboard's filtering is conjunctive — a record survives iff
it is in the loaded table, its date is non-null and inside the selected
range, and it matches every categorical filter whose selection is not
"All" — and commutative: applying the four filter steps in any order
yields the same resulting subset. -/
theorem dashboard_filters_conjunctive_commutative (df : List Row)
    (s e : Int) (a d ar : String) :
    (∀ r : Row, r ∈ applyFilters df s e a d ar ↔
      r ∈ df ∧
      (∃ fd : Int, r.flight_date = some fd ∧ s ≤ fd ∧ fd ≤ e) ∧
      (a = "All" ∨ r.airline_name = some a) ∧
      (d = "All" ∨ r.dep_iata = some d) ∧
      (ar = "All" ∨ r.arr_iata = some ar)) ∧
    (∀ ord : List (Fin 4), ord.Perm [0, 1, 2, 3] →
      applyFiltersOrder ord df s e a d ar = applyFilters df s e a d ar) := by
  have hdef : applyFilters df s e a d ar =
      applyFiltersOrder [0, 1, 2, 3] df s e a d ar := rfl
  constructor
  · intro r
    rw [hdef, applyFiltersOrder_eq_filter_all, List.mem_filter]
    simp only [List.all_cons, List.all_nil, Bool.and_true, Bool.and_eq_true,
      Bool.or_eq_true, beq_iff_eq, stepPred, date_mask_eq_true_iff]
  · intro ord hperm
    rw [hdef, applyFiltersOrder_eq_filter_all, applyFiltersOrder_eq_filter_all]
    refine List.filter_congr ?_
    intro r _
    exact all_eq_of_perm hperm (fun i => stepPred s e a d ar i r)

/-- Evaluation of C9: the reversed filter order on the Emirates scenario
agrees with the source order. -/
theorem dashboard_filters_conjunctive_commutative_witness :
    applyFiltersOrder [3, 2, 1, 0] emiratesRows 0 0 "Emirates" "All" "All" =
      applyFilters emiratesRows 0 0 "Emirates" "All" "All" :=
  (dashboard_filters_conjunctive_commutative emiratesRows 0 0
    "Emirates" "All" "All").2 [3, 2, 1, 0] (by decide)

/-- The pagination loop requests at most the configured number of pages. -/
theorem fetchPagesAux_length_le (api : Nat → List (List (String × Json)))
    (limit : Nat) :
    ∀ n off, (fetchPagesAux api limit n off).length ≤ n := by
  intro n
  induction n with
  | zero => intro off; simp [fetchPagesAux]
  | succ m ih =>
    intro off
    rw [fetchPagesAux]
    by_cases h : (api off).length < limit
    · simp [h]
    · simpa [h] using ih (off + limit)

/-- The i-th requested page carries offset `off + i * limit` and reports
the record count the stubbed API returns at that offset. -/
theorem fetchPagesAux_get (api : Nat → List (List (String × Json)))
    (limit : Nat) :
    ∀ n off i, i < (fetchPagesAux api limit n off).length →
      ((fetchPagesAux api limit n off).getD i (0, 0)).1 = off + i * limit ∧
      ((fetchPagesAux api limit n off).getD i (0, 0)).2 =
        (api (off + i * limit)).length := by
  intro n
  induction n with
  | zero => intro off i h; simp [fetchPagesAux] at h
  | succ m ih =>
    intro off i h
    rw [fetchPagesAux] at h ⊢
    cases i with
    | zero => simp
    | succ j =>
      by_cases hc : (api off).length < limit
      · simp [hc] at h
      · simp only [hc, if_false] at h ⊢
        simp only [List.length_cons, Nat.add_lt_add_iff_right] at h
        have := ih (off + limit) j h
        simpa [List.getD_cons_succ, Nat.succ_mul, Nat.add_comm,
          Nat.add_assoc, Nat.add_left_comm] using this

/-- If a further page was requested after page i, page i was full: the API
returned at least `limit` records there. -/
theorem fetchPagesAux_full_before (api : Nat → List (List (String × Json)))
    (limit : Nat) :
    ∀ n off i, i + 1 < (fetchPagesAux api limit n off).length →
      limit ≤ (api (off + i * limit)).length := by
  intro n
  induction n with
  | zero => intro off i h; simp [fetchPagesAux] at h
  | succ m ih =>
    intro off i h
    rw [fetchPagesAux] at h
    by_cases hc : (api off).length < limit
    · simp [hc] at h
    · cases i with
      | zero => simpa using Nat.le_of_not_lt hc
      | succ j =>
        simp only [hc, if_false, List.length_cons,
          Nat.add_lt_add_iff_right] at h
        have := ih (off + limit) j h
        simpa [Nat.succ_mul, Nat.add_comm, Nat.add_assoc,
          Nat.add_left_comm] using this

/-- As soon as a requested page is short (fewer than `limit` records), the
loop stops: that page is the last one. -/
theorem fetchPagesAux_stops_short (api : Nat → List (List (String × Json)))
    (limit : Nat) :
    ∀ n off i, i < (fetchPagesAux api limit n off).length →
      (api (off + i * limit)).length < limit →
      (fetchPagesAux api limit n off).length = i + 1 := by
  intro n
  induction n with
  | zero => intro off i h; simp [fetchPagesAux] at h
  | succ m ih =>
    intro off i h hshort
    rw [fetchPagesAux] at h ⊢
    cases i with
    | zero =>
      simp only [Nat.add_zero, Nat.zero_mul] at hshort
      simp [hshort]
    | succ j =>
      by_cases hc : (api off).length < limit
      · simp [hc] at h
      · simp only [hc, if_false, List.length_cons,
          Nat.add_lt_add_iff_right] at h ⊢
        have hshift : (api (off + limit + j * limit)).length < limit := by
          have : off + limit + j * limit = off + (j + 1) * limit := by ring
          rw [this]
          exact hshort
        rw [ih (off + limit) j h hshift]

/-- C4: for every stubbed API and every configuration, the per-airline
fetch starts at offset 0, requests page i at offset `i * limit`, never
exceeds `max_pages` pages, only continues past a page that was full
(≥ `limit` records), and stops right after the first short page; in the
scenario with `limit = 100` where the second page holds 40 records,
exactly the two pages at offsets 0 and 100 are requested — no third page. -/
theorem fetcher_pagination (api : Nat → List (List (String × Json)))
    (maxPages limit : Nat) :
    (fetchPages api maxPages limit).length ≤ maxPages ∧
    (∀ i, i < (fetchPages api maxPages limit).length →
      ((fetchPages api maxPages limit).getD i (0, 0)).1 = i * limit ∧
      ((fetchPages api maxPages limit).getD i (0, 0)).2 =
        (api (i * limit)).length) ∧
    (∀ i, i + 1 < (fetchPages api maxPages limit).length →
      limit ≤ (api (i * limit)).length) ∧
    (∀ i, i < (fetchPages api maxPages limit).length →
      (api (i * limit)).length < limit →
      (fetchPages api maxPages limit).length = i + 1) ∧
    fetchPages api40 5 100 = [(0, 100), (100, 40)] := by
  refine ⟨fetchPagesAux_length_le api limit maxPages 0, ?_, ?_, ?_, rfl⟩
  · intro i h
    simpa using fetchPagesAux_get api limit maxPages 0 i h
  · intro i h
    simpa using fetchPagesAux_full_before api limit maxPages 0 i h
  · intro i h hshort
    exact fetchPagesAux_stops_short api limit maxPages 0 i h (by simpa using hshort)

/-- Evaluation of C4: in the 100/40 scenario only two pages are fetched,
and the second page was requested because the first was full. -/
theorem fetcher_pagination_witness :
    ((fetchPages api40 5 100).getD 1 (0, 0)).1 = 1 * 100 ∧
    100 ≤ (api40 (0 * 100)).length :=
  ⟨((fetcher_pagination api40 5 100).2.1 1 (by decide)).1,
   (fetcher_pagination api40 5 100).2.2.1 0 (by decide)⟩

/-- A one-key helper walk is exactly a dict lookup (with exception and
stored-null both ending as null). -/
theorem getJ_singleton (f : List (String × Json)) (k : String) :
    (getJ (Json.obj f) [k]).getD Json.null = (f.lookup k).getD Json.null := by
  cases h : f.lookup k <;> simp [getJ, h]

/-- Every cell of a flattened row is the helper walk of its field's dotted
path, defaulted to null. -/
theorem flatten_flight_eq_map (f : List (String × Json)) :
    flatten_flight f = fieldPaths.map
      (fun np => (np.1, (getJ (Json.obj f) np.2).getD Json.null)) := by
  simp [flatten_flight, fieldPaths, cell, getJ_singleton]

/-- Looking a name up in a row built by mapping a cell function over a
name/path table with distinct names finds that name's cell. -/
theorem lookup_map_cells (F : List String → Json) :
    ∀ l : List (String × List String), (l.map Prod.fst).Nodup →
      ∀ n p, (n, p) ∈ l →
        (l.map (fun np => (np.1, F np.2))).lookup n = some (F p) := by
  intro l
  induction l with
  | nil => simp
  | cons hd tl ih =>
    intro hnodup n p hmem
    obtain ⟨m, q⟩ := hd
    rw [List.map_cons, List.nodup_cons] at hnodup
    rcases List.mem_cons.mp hmem with heq | htl
    · rcases heq with ⟨⟩
      simp [List.lookup]
    · have hne : n ≠ m := by
        intro he
        subst he
        exact hnodup.1 (by simpa using List.mem_map_of_mem Prod.fst htl)
      have hb : (n == m) = false := by simpa using hne
      simp only [List.map_cons, List.lookup, hb]
      exact ih hnodup.2 n p htl

/-- C5: flattening is per-field and total.  For every raw record and every
field of the fixed schema: if the helper walk of the field's dotted path
fails (a missing intermediate key, or a step into a value that is not an
object), the row holds null in that field; if the walk finds a value, the
row holds exactly that value; and the field's cell depends only on its own
path — two records agreeing on the path get identical cells, whatever
their other fields look like.  (`flatten_flight` is a total function: no
input record can make it fail.) -/
theorem flatten_flight_null_on_missing (f g : List (String × Json))
    (n : String) (p : List String) (hmem : (n, p) ∈ fieldPaths) :
    (getJ (Json.obj f) p = none →
      (flatten_flight f).lookup n = some Json.null) ∧
    (∀ v, getJ (Json.obj f) p = some v →
      (flatten_flight f).lookup n = some v) ∧
    (getJ (Json.obj f) p = getJ (Json.obj g) p →
      (flatten_flight f).lookup n = (flatten_flight g).lookup n) := by
  have hnodup : (fieldPaths.map Prod.fst).Nodup := by decide
  have hf := lookup_map_cells
    (fun ks => (getJ (Json.obj f) ks).getD Json.null) fieldPaths hnodup n p hmem
  have hg := lookup_map_cells
    (fun ks => (getJ (Json.obj g) ks).getD Json.null) fieldPaths hnodup n p hmem
  rw [← flatten_flight_eq_map] at hf hg
  refine ⟨?_, ?_, ?_⟩
  · intro h
    rw [hf]
    simp [h]
  · intro v h
    rw [hf]
    simp [h]
  · intro h
    rw [hf, hg]
    simp [h]

/-- Evaluation of C5 on the empty record: the `airline.name` walk fails,
so the `airline_name` cell is null. -/
theorem flatten_flight_null_on_missing_witness :
    (flatten_flight []).lookup "airline_name" = some Json.null :=
  (flatten_flight_null_on_missing [] [] "airline_name" ["airline", "name"]
    (by decide)).1 rfl

end AviationDashboard
